import Mathlib

/-!
Shallow embedding of src/wxpy/api/messages/message.py: the Message view over a
raw chat payload, and its forward dispatcher. Python dictionaries are modelled
as structures of optional slots, Python exceptions as an error type threaded
through Except, and outbound sends as an explicit ordered trace of send
operations against the destination chat. Time-related accessors and the reply
bindings are omitted: no property below concerns them.
-/

namespace Wxpy

/-- Python exceptions that the embedded code can raise or catch. -/
inductive PyError where
  | typeError
  | keyError
  | valueError
  | attributeError
  | recursionError
  | notImplementedError
  | transportError
  deriving DecidableEq

/-- Exact decimal model of the Python float produced by a successful float()
coercion of a plain decimal literal: the value is mantissa / 10 ^ shift. -/
structure PyFloat where
  mantissa : Int
  shift : Nat
  deriving DecidableEq

/-- Values stored in the raw payload mapping. The downloader constructor
models the callable download capability some transports place in the Text
slot; obj models other opaque Python objects. -/
inductive PyVal where
  | none
  | str (s : String)
  | int (n : Int)
  | float (f : PyFloat)
  | downloader (id : Nat)
  | obj (tag : String)
  deriving DecidableEq

/-- Python truthiness of a payload value. -/
def pyTruthy : PyVal → Bool
  | .none => false
  | .str s => s != ""
  | .int n => n != 0
  | .float f => f.mantissa != 0
  | .downloader _ => true
  | .obj _ => true

/-- Rendering of a value by str() / str.format. The float rendering is a
placeholder: no embedded operation below ever renders a float. -/
def pyStr : PyVal → String
  | .none => "None"
  | .str s => s
  | .int n => toString n
  | .float f => toString f.mantissa ++ "/10^" ++ toString f.shift
  | .downloader i => "<downloader:" ++ toString i ++ ">"
  | .obj t => "<" ++ t ++ ">"

/-- Value of a list of decimal digit characters. -/
def digitsVal (l : List Char) : Nat :=
  l.foldl (fun n c => 10 * n + (c.toNat - 48)) 0

/-- Models the Python float() builtin on plain decimal literals: digits with
an optional fractional part. Exponents, whitespace, underscores, inf and nan
are outside the modelled fragment. -/
def parseUnsignedFloat (l : List Char) : Option PyFloat :=
  let ip := l.takeWhile Char.isDigit
  let rest := l.dropWhile Char.isDigit
  match rest with
  | [] => if ip.isEmpty then Option.none else some ⟨(digitsVal ip : Int), 0⟩
  | '.' :: frac =>
    if frac.all Char.isDigit && !(ip.isEmpty && frac.isEmpty) then
      some ⟨(digitsVal (ip ++ frac) : Int), frac.length⟩
    else Option.none
  | _ => Option.none

/-- float() on a string, with an optional leading sign. -/
def parseFloatLit (s : String) : Option PyFloat :=
  match s.toList with
  | '-' :: t => (parseUnsignedFloat t).map (fun f => ⟨-f.mantissa, f.shift⟩)
  | '+' :: t => parseUnsignedFloat t
  | l => parseUnsignedFloat l

/-- Digits of an unsigned integer literal. -/
def parseDigitsInt (l : List Char) : Option Int :=
  if !l.isEmpty && l.all Char.isDigit then some ((digitsVal l : Int)) else Option.none

/-- Models the Python int() builtin on plain decimal integer literals. -/
def parseIntLit (s : String) : Option Int :=
  match s.toList with
  | '-' :: t => (parseDigitsInt t).map Neg.neg
  | '+' :: t => parseDigitsInt t
  | l => parseDigitsInt l

/-- Value of one attribute of the parsed location record: initially a string,
possibly coerced in place to a float or an int. -/
inductive LocVal where
  | str (s : String)
  | float (f : PyFloat)
  | int (n : Int)
  deriving DecidableEq

/-- Association-list lookup, modelling dictionary access by key. -/
def alookup {α : Type} : List (String × α) → String → Option α
  | [], _ => Option.none
  | (k, v) :: t, key => if k = key then some v else alookup t key

/-- In-place update of one key of the record, modelling dictionary item
assignment. -/
def setAttr {α : Type} (a : List (String × α)) (key : String) (v : α) :
    List (String × α) :=
  a.map (fun p => if p.1 = key then (p.1, v) else p)

/-- float() applied to an attribute value. Attribute values of a parsed
document always start as strings; the numeric branches mirror the builtin on
already-numeric input and are unreachable from the location pipeline. -/
def locFloat : LocVal → Option PyFloat
  | .str s => parseFloatLit s
  | .float f => some f
  | .int n => some ⟨n, 0⟩

/-- int() applied to an attribute value; the float branch is unreachable from
the location pipeline and its rounding is not modelled precisely. -/
def locInt : LocVal → Option Int
  | .str s => parseIntLit s
  | .int n => some n
  | .float f => some (f.mantissa / (10 : Int) ^ f.shift)

/-- The inner coercion block of Message.location: the four coercions are
attempted in source order, each mutating the record in place, and the first
KeyError or ValueError aborts the block while keeping the mutations already
made. -/
def coerceLocation (a : List (String × LocVal)) : List (String × LocVal) :=
  match alookup a "x" with
  | Option.none => a
  | some vx =>
    match locFloat vx with
    | Option.none => a
    | some fx =>
      let a1 := setAttr a "x" (.float fx)
      match alookup a1 "y" with
      | Option.none => a1
      | some vy =>
        match locFloat vy with
        | Option.none => a1
        | some fy =>
          let a2 := setAttr a1 "y" (.float fy)
          match alookup a2 "scale" with
          | Option.none => a2
          | some vs =>
            match locInt vs with
            | Option.none => a2
            | some ns =>
              let a3 := setAttr a2 "scale" (.int ns)
              match alookup a3 "maptype" with
              | Option.none => a3
              | some vm =>
                match locInt vm with
                | Option.none => a3
                | some nm => setAttr a3 "maptype" (.int nm)

/-- An element of the parsed OriContent document (tag, attributes, direct
children), mirroring what xml.etree produces. -/
inductive XmlElem where
  | node (tag : String) (attrib : List (String × String)) (children : List XmlElem)

/-- Tag of an element. -/
def XmlElem.tag : XmlElem → String
  | .node t _ _ => t

/-- Attribute mapping of an element. -/
def XmlElem.attrib : XmlElem → List (String × String)
  | .node _ a _ => a

/-- Direct children of an element. -/
def XmlElem.children : XmlElem → List XmlElem
  | .node _ _ c => c

/-- Model of the raw OriContent slot as seen through ETree.fromstring: a
non-string value raises TypeError, a string either fails to parse (ParseError)
or yields a document root. The string-to-tree step is standard-library
behaviour, represented here by its outcome. -/
inductive OriInput where
  | notText (v : PyVal)
  | malformed (s : String)
  | doc (root : XmlElem)

/-- The RecommendInfo sub-mapping carried by card and friend-request
payloads. -/
structure RecInfo where
  content : Option PyVal := Option.none
  attrStatus : Option PyVal := Option.none
  nickName : Option PyVal := Option.none

/-- The raw payload mapping. Absent slots model absent dictionary keys; keys
unused by any embedded operation are omitted. -/
structure RawMsg where
  type : Option PyVal := Option.none
  newMsgId : Option PyVal := Option.none
  text : Option PyVal := Option.none
  fileName : Option PyVal := Option.none
  fileSize : Option PyVal := Option.none
  mediaId : Option PyVal := Option.none
  url : Option PyVal := Option.none
  recommendInfo : Option RecInfo := Option.none
  oriContent : Option OriInput := Option.none
  fromUserName : Option PyVal := Option.none
  toUserName : Option PyVal := Option.none
  actualUserName : Option PyVal := Option.none
  actualNickName : Option PyVal := Option.none
  hasProductId : Option PyVal := Option.none
  msgType : Option PyVal := Option.none
  content : Option PyVal := Option.none

/-- Modelled from the spec: a member record of a group roster entry; the
Member class itself is outside src. -/
structure MemberRec where
  userName : PyVal
  nickName : PyVal := PyVal.none
  deriving DecidableEq

/-- Modelled from the spec: a Chat/Contact reference, resolved by matching a
raw participant identifier against the roster; the Chat classes are outside
src, and equality of chats is by identifier per the roster-matching rule. -/
structure Chat where
  userName : String
  nickName : Option PyVal := Option.none
  isGroup : Bool := false
  members : List MemberRec := []

/-- Modelled from the spec: the session (bot) with its own identity, roster
lists and the temporary-directory scope; the Bot class is outside src. -/
structure Bot where
  selfUserName : String
  groups : List Chat := []
  friends : List Chat := []
  mps : List Chat := []
  tempDir : String := "/tmp/wxpy"

/-- Modelled from the spec: wrap_user_name builds the minimal payload for a
bare Chat reference holding only the identifier. -/
def wrapChat (s : String) : Chat := { userName := s }

/-- Index of the last occurrence of a character, the rfind of the CPython
splitext. -/
def lastIdx? : List Char → Char → Option Nat
  | [], _ => Option.none
  | a :: t, c =>
    match lastIdx? t c with
    | some i => some (i + 1)
    | Option.none => if a = c then some 0 else Option.none

/-- os.path.splitext on posix paths, following the CPython generic splitext:
split at the last dot after the last separator, unless the basename up to that
dot consists only of dots. -/
def splitextList (l : List Char) : List Char × List Char :=
  match lastIdx? l '.' with
  | Option.none => (l, [])
  | some d =>
    let start := match lastIdx? l '/' with
      | Option.none => 0
      | some s => s + 1
    if decide (start ≤ d) && ((l.drop start).take (d - start)).any (fun c => c != '.') then
      (l.take d, l.drop d)
    else (l, [])

/-- splitext on strings. -/
def splitext (p : String) : String × String :=
  (String.mk (splitextList p.toList).1, String.mk (splitextList p.toList).2)

/-- str.replace of every dot by the empty string, as done by the Attachment
branch of forward: a single-character pattern removes each occurrence. -/
def dropDots (s : String) : String := String.mk (s.toList.filter (fun c => c != '.'))

/-- The file_ext field of the rebuilt attachment envelope. -/
def fileExtNoDots (fn : String) : String := dropDots (splitext fn).2

/-- Modelled: tempfile.mkstemp allocates a fresh file under the session temp
directory whose name ends with the given suffix; only the shape of the path
matters to the embedding. -/
def mkstempPath (dir suffixArg : String) : String := dir ++ "/tmp" ++ suffixArg

/-- str.startswith, computed on the character lists. -/
def pyStartsWith (s pre : String) : Bool := pre.toList.isPrefixOf s.toList

namespace Message

/-- Message.location: parse the location sub-document out of OriContent.
TypeError, KeyError, ValueError and ParseError are caught and yield None, but
the AttributeError arising from a document without a location child (find
returns None, then .attrib is read) is not caught. -/
def location (m : RawMsg) : Except PyError (Option (List (String × LocVal))) :=
  match m.oriContent with
  | Option.none => .ok Option.none
  | some (.notText _) => .ok Option.none
  | some (.malformed _) => .ok Option.none
  | some (.doc root) =>
    match root.children.find? (fun c => c.tag == "location") with
    | Option.none => .error .attributeError
    | some le => .ok (some (coerceLocation (le.attrib.map (fun p => (p.1, LocVal.str p.2)))))

/-- Modelled from the spec: the recommended contact name, read off its
payload; the User class is outside src. A card wrapping an absent
RecommendInfo raises AttributeError on attribute access. -/
def cardName : Option RecInfo → Except PyError PyVal
  | Option.none => .error .attributeError
  | some ri => .ok (ri.nickName.getD .none)

/-- Modelled from the spec: the raw request message of the recommended
contact, read off its payload. -/
def cardContent : Option RecInfo → Except PyError PyVal
  | Option.none => .error .attributeError
  | some ri => .ok (ri.content.getD .none)

/-- Injection of a location attribute value back into a payload value. -/
def locValToPy : LocVal → PyVal
  | .str s => .str s
  | .float f => .float f
  | .int n => .int n

/-- The fallthrough tail of Message.text: the literal Text slot when it is a
string, None otherwise (a non-string slot is never stringified). -/
def fallbackText (m : RawMsg) : Except PyError PyVal :=
  match m.text with
  | some (.str s) => .ok (.str s)
  | _ => .ok .none

/-- Message.text: kind-dependent extraction. The is-comparisons of the source
against the interned kind constants are modelled as string equality. A card
is truthy exactly when the kind is Card or Friends, so the elif chain reduces
to the cases below. -/
def text (m : RawMsg) : Except PyError PyVal :=
  if m.type = some (.str "Map") then
    match location m with
    | .error e => .error e
    | .ok (some a) =>
      if a.isEmpty then fallbackText m
      else .ok ((alookup a "label").elim PyVal.none locValToPy)
    | .ok Option.none => fallbackText m
  else if m.type = some (.str "Card") then cardName m.recommendInfo
  else if m.type = some (.str "Friends") then cardContent m.recommendInfo
  else fallbackText m

/-- Outcome of Message.get_file: which downloader capability was invoked and
with which save path; the downloader result itself belongs to the external
capability. -/
structure DlCall where
  id : Nat
  savePath : Option String
  deriving DecidableEq

/-- Membership of the kind in (PICTURE, RECORDING, ATTACHMENT, VIDEO). -/
def isMediaType (t : Option PyVal) : Bool :=
  t == some (.str "Picture") || t == some (.str "Recording") ||
    t == some (.str "Attachment") || t == some (.str "Video")

/-- Message.get_file: invoke the downloader held in the Text slot for media
kinds, raising ValueError otherwise. -/
def get_file (m : RawMsg) (savePath : Option String) : Except PyError DlCall :=
  match m.text with
  | some (.downloader i) =>
    if isMediaType m.type then .ok ⟨i, savePath⟩ else .error .valueError
  | _ => .error .valueError

/-- Simplified model of html.unescape on the common named entities; inside
url it is unreachable because of the self-recursion below. -/
def htmlUnescape (s : String) : String :=
  (((s.replace "&lt;" "<").replace "&gt;" ">").replace "&quot;" "\"").replace "&amp;" "&"

/-- Message.url with an explicit recursion budget: the source line
ret = html.unescape(self.url) re-enters the url property itself rather than
unescaping the local ret, so a string Url slot recurses until the Python
recursion limit. -/
def urlFuel (m : RawMsg) : Nat → Except PyError PyVal
  | 0 => .error .recursionError
  | fuel + 1 =>
    match m.url with
    | some (.str _) =>
      match urlFuel m fuel with
      | .error e => .error e
      | .ok (.str s) => .ok (.str (htmlUnescape s))
      | .ok _ => .error .typeError
    | some v => .ok v
    | Option.none => .ok .none

/-- Message.url at the default Python recursion limit. -/
def url (m : RawMsg) : Except PyError PyVal := urlFuel m 1000

/-- First roster entry whose identifier matches. -/
def matchInChats (chats : List Chat) (userName : String) : Option Chat :=
  chats.find? (fun c => c.userName == userName)

/-- Message._get_chat_by_user_name: group-prefixed identifiers search the
groups, other identifiers search friends then mps, and a miss synthesizes a
bare Chat. A non-string identifier raises AttributeError at startswith. -/
def getChatByUserName (bot : Bot) (userName : PyVal) : Except PyError Chat :=
  match userName with
  | .str s =>
    let found :=
      if pyStartsWith s "@@" then matchInChats bot.groups s
      else if s != "" then
        match matchInChats bot.friends s with
        | some c => some c
        | Option.none => matchInChats bot.mps s
      else Option.none
    .ok (found.getD (wrapChat s))
  | _ => .error .attributeError

/-- Message.sender. -/
def sender (bot : Bot) (m : RawMsg) : Except PyError Chat :=
  getChatByUserName bot (m.fromUserName.getD .none)

/-- Message.receiver. -/
def receiver (bot : Bot) (m : RawMsg) : Except PyError Chat :=
  getChatByUserName bot (m.toUserName.getD .none)

/-- Message.chat: receiver for self-originated payloads, sender otherwise. -/
def chat (bot : Bot) (m : RawMsg) : Except PyError Chat :=
  if m.fromUserName.getD .none = .str bot.selfUserName then receiver bot m
  else sender bot m

/-- Modelled from the spec: the self-membership of a group; Group.self is
outside src. -/
def groupSelf (bot : Bot) (_g : Chat) : MemberRec :=
  { userName := .str bot.selfUserName }

/-- Message.member: the acting group member, with a transient member record
synthesized for identifiers absent from the member list. -/
def member (bot : Bot) (m : RawMsg) : Except PyError (Option MemberRec) := do
  let ch ← chat bot m
  if ch.isGroup then
    let snd ← sender bot m
    if snd.userName = bot.selfUserName then
      return some (groupSelf bot ch)
    else
      let au := m.actualUserName.getD .none
      match ch.members.find? (fun mb => mb.userName == au) with
      | some mb => return some mb
      | Option.none => return some { userName := au, nickName := m.actualNickName.getD .none }
  else
    return Option.none

/-- The replace of each line break by a marked blank in the repr text. -/
def replaceNlList : List Char → List Char
  | [] => []
  | '\n' :: t => ' ' :: '↩' :: ' ' :: replaceNlList t
  | c :: t => c :: replaceNlList t

/-- Modelled from the spec: the display name of a chat reference; the name
property of the Chat classes is outside src, and a bare reference carries no
name. -/
def chatName (c : Chat) : String := pyStr (c.nickName.getD .none)

/-- Display name of an acting member. -/
def memberName : Option MemberRec → String
  | some mb => pyStr mb.nickName
  | Option.none => "None"

/-- Modelled from the spec: inequality between the acting member and the
receiver, by identifier. -/
def memberNeChat : Option MemberRec → Chat → Bool
  | some mb, c => mb.userName != .str c.userName
  | Option.none, _ => true

/-- Message.repr, as evaluated eagerly by the logging format calls inside
forward; modelled for its raise behaviour, with spec-modelled name
rendering. -/
def msgRepr (bot : Bot) (m : RawMsg) : Except PyError String := do
  let tv ← text m
  let t0 := pyStr (if pyTruthy tv then tv else .str "")
  let t1 := String.mk (replaceNlList t0.toList)
  let t2 := if t1 != "" then t1 ++ " " else t1
  let tail := " : " ++ t2 ++ "(" ++ pyStr (m.type.getD .none) ++ ")"
  let snd ← sender bot m
  if snd.userName = bot.selfUserName then
    let rcv ← receiver bot m
    return "↪ " ++ chatName rcv ++ tail
  else
    let ch ← chat bot m
    if ch.isGroup then
      let mem ← member bot m
      let rcv ← receiver bot m
      if memberNeChat mem rcv then
        return chatName snd ++ " › " ++ memberName mem ++ tail
      else
        return chatName snd ++ tail
    else
      return chatName snd ++ tail

/-- One outbound send against the destination chat. -/
inductive SendOp where
  | sendMsg (content : String)
  | sendImage (path : String)
  | sendVideo (path : String)
  | sendFile (path : String)
  | sendRawMsg (msgType : PyVal) (content : PyVal) (uri : String)
  deriving DecidableEq

/-- The destination chat capability: oracles deciding whether each send and
each downloader invocation succeeds, a TransportFailure being raised
otherwise. -/
structure Dest where
  ok : SendOp → Bool := fun _ => true
  downloadOk : Nat → Bool := fun _ => true

/-- The opaque acknowledgement value a successful send returns. -/
def sendResult : PyVal := .obj "SentMessage"

/-- Truthiness of the optional prefix and suffix arguments. -/
def optStrTruthy : Option String → Bool
  | some s => s != ""
  | Option.none => false

/-- The text composed by wrapped_send for a plain message send: prefix and
suffix joined to the body with line breaks when truthy. -/
def wrapText (pre suf : Option String) (body : String) : String :=
  (match pre with
   | some p => if p != "" then p ++ "\n" else ""
   | Option.none => "") ++
  body ++
  (match suf with
   | some s => if s != "" then "\n" ++ s else ""
   | Option.none => "")

/-- The msg branch of wrapped_send: a single send_msg of the wrapped text. -/
def sendMsgWrapped (d : Dest) (pre suf : Option String) (body : String) :
    List SendOp × Except PyError PyVal :=
  let op := SendOp.sendMsg (wrapText pre suf body)
  ([op], if d.ok op then .ok sendResult else .error .transportError)

/-- The tail of the non-msg branch of wrapped_send: the primary send, then the
suffix as its own plain message; a failed send aborts everything after it, and
the value returned on success is that of the primary send. -/
def sendOtherCore (d : Dest) (suf : Option String) (op : SendOp) (t : List SendOp) :
    List SendOp × Except PyError PyVal :=
  if d.ok op then
    match suf with
    | some s =>
      if s != "" then
        (t ++ [op, SendOp.sendMsg s],
          if d.ok (SendOp.sendMsg s) then .ok sendResult else .error .transportError)
      else (t ++ [op], .ok sendResult)
    | Option.none => (t ++ [op], .ok sendResult)
  else (t ++ [op], .error .transportError)

/-- The non-msg branch of wrapped_send: the prefix as its own plain message,
then the primary send, then the suffix. -/
def sendOtherWrapped (d : Dest) (pre suf : Option String) (op : SendOp) :
    List SendOp × Except PyError PyVal :=
  match pre with
  | some p =>
    if p != "" then
      if d.ok (SendOp.sendMsg p) then sendOtherCore d suf op [SendOp.sendMsg p]
      else ([SendOp.sendMsg p], .error .transportError)
    else sendOtherCore d suf op []
  | Option.none => sendOtherCore d suf op []

/-- The list of prefix or suffix sends produced by the non-msg branch of
wrapped_send: one plain message when truthy, nothing otherwise. -/
def optMsg : Option String → List SendOp
  | some s => if s != "" then [SendOp.sendMsg s] else []
  | Option.none => []

/-- Whether a send is a raw protocol-level send. -/
def isRawSend : SendOp → Bool
  | .sendRawMsg _ _ _ => true
  | _ => false

/-- A single-quote character, used by the attachment envelope template. -/
def sq : String := String.singleton (Char.ofNat 39)

/-- The file-attachment content envelope rebuilt by the Attachment branch of
forward, with every placeholder already substituted. -/
def appmsgContent (fn fs mid ext : String) : String :=
  "<appmsg appid=" ++ sq ++ "wxeb7ec651dd0aefa9" ++ sq ++ " sdkver=" ++ sq ++ sq ++ ">" ++
  "<title>" ++ fn ++ "</title><des></des><action></action>" ++
  "<type>6</type><content></content><url></url><lowurl></lowurl>" ++
  "<appattach><totallen>" ++ fs ++ "</totallen><attachid>" ++ mid ++ "</attachid>" ++
  "<fileext>" ++ ext ++ "</fileext></appattach><extinfo></extinfo></appmsg>"

/-- download_and_send inside forward: allocate a temp path, invoke the message
downloader through get_file, then re-send by kind (Picture as image, Video as
video, Recording as a generic file). -/
def downloadAndSend (bot : Bot) (m : RawMsg) (d : Dest) (pre suf : Option String) :
    List SendOp × Except PyError PyVal :=
  let path := mkstempPath bot.tempDir ("_" ++ pyStr (m.fileName.getD .none))
  match get_file m (some path) with
  | .error e => ([], .error e)
  | .ok call =>
    if d.downloadOk call.id then
      if m.type = some (.str "Picture") then sendOtherWrapped d pre suf (.sendImage path)
      else if m.type = some (.str "Video") then sendOtherWrapped d pre suf (.sendVideo path)
      else sendOtherWrapped d pre suf (.sendFile path)
    else ([], .error .transportError)

/-- raise_properly: log a warning, and raise NotImplementedError only in
strict mode; in default mode the branch falls off forward returning None. -/
def unsupportedResult (strict : Bool) : List SendOp × Except PyError PyVal :=
  ([], if strict then .error .notImplementedError else .ok .none)

/-- The supported Card branch of forward: replay the original raw content
envelope verbatim; the raw indexing of MsgType and then Content can raise
KeyError. -/
def cardSend (m : RawMsg) (d : Dest) (pre suf : Option String) :
    List SendOp × Except PyError PyVal :=
  match m.msgType with
  | Option.none => ([], .error .keyError)
  | some mt =>
    match m.content with
    | Option.none => ([], .error .keyError)
    | some cv => sendOtherWrapped d pre suf (.sendRawMsg mt cv "/webwxsendmsg")

/-- Message.forward: the dispatcher, returning the ordered trace of
destination sends together with the returned value or the raised error. The
eager logging format at entry evaluates repr of the message, so repr failures
propagate before any dispatch. -/
def forward (bot : Bot) (m : RawMsg) (d : Dest) (pre suf : Option String)
    (strict : Bool) : List SendOp × Except PyError PyVal :=
  match msgRepr bot m with
  | .error e => ([], .error e)
  | .ok _ =>
    if m.type = some (.str "Text") then
      match text m with
      | .error e => ([], .error e)
      | .ok tv => sendMsgWrapped d pre suf (pyStr tv)
    else if m.type = some (.str "Sharing") then
      match text m with
      | .error e => ([], .error e)
      | .ok tv =>
        match url m with
        | .error e => ([], .error e)
        | .ok uv => sendMsgWrapped d pre suf (pyStr tv ++ "\n" ++ pyStr uv)
    else if m.type = some (.str "Map") then
      match location m with
      | .error e => ([], .error e)
      | .ok Option.none => ([], .error .typeError)
      | .ok (some a) =>
        match alookup a "poiname" with
        | Option.none => ([], .error .keyError)
        | some pn =>
          match alookup a "label" with
          | Option.none => ([], .error .keyError)
          | some lb =>
            match url m with
            | .error e => ([], .error e)
            | .ok uv =>
              sendMsgWrapped d pre suf
                (pyStr (locValToPy pn) ++ ": " ++ pyStr (locValToPy lb) ++ "\n" ++ pyStr uv)
    else if m.type = some (.str "Attachment") then
      match m.fileName.getD .none with
      | .str fn =>
        match m.msgType with
        | Option.none => ([], .error .keyError)
        | some mt =>
          sendOtherWrapped d pre suf
            (.sendRawMsg mt
              (.str (appmsgContent fn (pyStr (m.fileSize.getD .none))
                (pyStr (m.mediaId.getD .none)) (fileExtNoDots fn)))
              "/webwxsendappmsg?fun=async&f=json")
      | _ => ([], .error .typeError)
    else if m.type = some (.str "Card") then
      match m.recommendInfo with
      | Option.none => ([], .error .attributeError)
      | some ri =>
        if pyTruthy (ri.attrStatus.getD .none) then
          match sender bot m with
          | .error e => ([], .error e)
          | .ok snd =>
            if snd.userName != bot.selfUserName then unsupportedResult strict
            else cardSend m d pre suf
        else cardSend m d pre suf
    else if m.type = some (.str "Picture") then
      if pyTruthy (m.hasProductId.getD .none) then unsupportedResult strict
      else downloadAndSend bot m d pre suf
    else if m.type = some (.str "Video") then downloadAndSend bot m d pre suf
    else if m.type = some (.str "Recording") then downloadAndSend bot m d pre suf
    else unsupportedResult strict

/-- A Message view as a Python object: the raw payload plus the identity of
the instance. Message defines a hash override but no eq override, so the
default object-identity equality applies; objId models the object identity,
distinct for distinct instances. -/
structure MsgView where
  raw : RawMsg
  objId : Nat

/-- Message.hash, hash((Message, self.id)): modelled as the deterministic key
the hash is computed from. -/
def msgHash (v : MsgView) : String × PyVal := ("Message", v.raw.newMsgId.getD .none)

/-- Python equality of two Message instances: default object identity. -/
def msgEq (a b : MsgView) : Bool := a.objId == b.objId

end Message

/-! Concrete fixtures used to instantiate the claim theorems. -/

/-- A session with an empty roster. -/
def botEx : Bot := { selfUserName := "@self" }

/-- A destination on which every send and download succeeds. -/
def destAllOk : Message.Dest := {}

/-- A destination on which only plain-message sends succeed. -/
def destMsgOnly : Message.Dest :=
  { ok := fun o => match o with
      | .sendMsg _ => true
      | _ => false }

/-- A concrete Text payload. -/
def textMsgEx : RawMsg :=
  { type := some (.str "Text"), text := some (.str "T"),
    fromUserName := some (.str "@alice"), toUserName := some (.str "@self"),
    newMsgId := some (.int 42) }

/-- A concrete Note payload, an unsupported forward kind. -/
def noteMsgEx : RawMsg :=
  { type := some (.str "Note"), text := some (.str "sys"),
    fromUserName := some (.str "@alice"), toUserName := some (.str "@self") }

/-- A concrete Sharing payload whose Url slot holds a string. -/
def sharingMsgEx : RawMsg :=
  { type := some (.str "Sharing"), text := some (.str "Title"),
    url := some (.str "http://e.x/?a=1&amp;b=2") }

/-- A concrete Attachment payload. -/
def attMsgEx : RawMsg :=
  { type := some (.str "Attachment"), text := some (.str "ignored"),
    fileName := some (.str "report.tar.gz"), fileSize := some (.int 123),
    mediaId := some (.str "@media1"), msgType := some (.int 6),
    fromUserName := some (.str "@alice"), toUserName := some (.str "@self") }

/-- A concrete Map payload whose location coercion fails midway: x and y
parse as floats, scale does not parse as an integer. -/
def locPartialMsg : RawMsg :=
  { oriContent := some (.doc (.node "msg" []
      [.node "location" [("x", "1.5"), ("y", "2.5"), ("scale", "zz"), ("maptype", "3")] []])) }

/-- A concrete Map payload whose location sub-document parses to an empty
record while the Text slot holds a string. -/
def mapEmptyLocMsg : RawMsg :=
  { type := some (.str "Map"), text := some (.str "T"),
    oriContent := some (.doc (.node "msg" [] [.node "location" [] []])) }

/-- A concrete RecommendInfo payload carrying only a display name. -/
def recInfoEx : RecInfo := { nickName := some (.str "Ann") }

/-- A concrete Card payload with a present RecommendInfo. -/
def cardMsgEx : RawMsg :=
  { type := some (.str "Card"), recommendInfo := some recInfoEx }

/-! Helper lemmas shared by the claim theorems. -/

/-- A roster match returns a chat carrying exactly the searched identifier. -/
theorem matchInChats_userName {l : List Chat} {s : String} {c : Chat}
    (h : Message.matchInChats l s = some c) : c.userName = s := by
  have hp := List.find?_some h
  simpa using hp

/-- Resolution of a string identifier always succeeds and returns a chat
carrying that identifier. -/
theorem getChat_str (bot : Bot) (s : String) :
    ∃ c, Message.getChatByUserName bot (.str s) = .ok c ∧ c.userName = s := by
  unfold Message.getChatByUserName
  cases h1 : pyStartsWith s "@@" with
  | true =>
    cases h2 : Message.matchInChats bot.groups s with
    | none => exact ⟨wrapChat s, by simp [h1, h2], rfl⟩
    | some c => exact ⟨c, by simp [h1, h2], matchInChats_userName h2⟩
  | false =>
    by_cases hs : s = ""
    · subst hs
      exact ⟨wrapChat "", by simp [h1], rfl⟩
    · have hs' : (s != "") = true := by simp [hs]
      cases h2 : Message.matchInChats bot.friends s with
      | some c => exact ⟨c, by simp [h1, hs', h2], matchInChats_userName h2⟩
      | none =>
        cases h3 : Message.matchInChats bot.mps s with
        | some c => exact ⟨c, by simp [h1, hs', h2, h3], matchInChats_userName h3⟩
        | none => exact ⟨wrapChat s, by simp [h1, hs', h2, h3], rfl⟩

/-- When no roster entry matches, resolution synthesizes the bare wrapped
chat. -/
theorem getChat_noMatch (bot : Bot) (s : String)
    (h : ∀ c ∈ bot.groups ++ bot.friends ++ bot.mps, c.userName ≠ s) :
    Message.getChatByUserName bot (.str s) = .ok (wrapChat s) := by
  have key : ∀ l : List Chat, (∀ c ∈ l, c.userName ≠ s) →
      Message.matchInChats l s = Option.none := by
    intro l hl
    unfold Message.matchInChats
    exact List.find?_eq_none.mpr (fun c hc => by simp [hl c hc])
  have hg := key bot.groups (fun c hc => h c (by simp [hc]))
  have hf := key bot.friends (fun c hc => h c (by simp [hc]))
  have hm := key bot.mps (fun c hc => h c (by simp [hc]))
  unfold Message.getChatByUserName
  cases h1 : pyStartsWith s "@@" <;> simp [h1, hg, hf, hm]

/-- When every send succeeds, the non-msg branch of wrapped_send produces the
trace prefix, primary, suffix in that order and returns the primary
acknowledgement. -/
theorem sendOtherWrapped_allOk (d : Message.Dest) (pre suf : Option String)
    (op : Message.SendOp) (hok : ∀ o, d.ok o = true) :
    Message.sendOtherWrapped d pre suf op =
      (Message.optMsg pre ++ [op] ++ Message.optMsg suf, .ok Message.sendResult) := by
  have core : ∀ t, Message.sendOtherCore d suf op t =
      (t ++ [op] ++ Message.optMsg suf, .ok Message.sendResult) := by
    intro t
    cases suf with
    | none => simp [Message.sendOtherCore, Message.optMsg, hok]
    | some s =>
      by_cases hs : s = "" <;> simp [Message.sendOtherCore, Message.optMsg, hok, hs]
  cases pre with
  | none => simp [Message.sendOtherWrapped, Message.optMsg, core]
  | some p =>
    by_cases hp : p = "" <;> simp [Message.sendOtherWrapped, Message.optMsg, hok, hp, core]

/-- When the primary send fails (plain-message sends succeeding), the trace
stops right after the primary send: the suffix is never attempted. -/
theorem sendOtherWrapped_primaryFail (d : Message.Dest) (pre suf : Option String)
    (op : Message.SendOp) (hmsg : ∀ s, d.ok (.sendMsg s) = true)
    (hfail : d.ok op = false) :
    Message.sendOtherWrapped d pre suf op =
      (Message.optMsg pre ++ [op], .error .transportError) := by
  have core : ∀ t, Message.sendOtherCore d suf op t = (t ++ [op], .error .transportError) := by
    intro t
    simp [Message.sendOtherCore, hfail]
  cases pre with
  | none => simp [Message.sendOtherWrapped, Message.optMsg, core]
  | some p =>
    by_cases hp : p = "" <;> simp [Message.sendOtherWrapped, Message.optMsg, hmsg, hp, core]

/-- A missing last index means the character does not occur. -/
theorem lastIdx_none {l : List Char} {c : Char} (h : lastIdx? l c = Option.none) :
    ∀ x ∈ l, x ≠ c := by
  induction l with
  | nil => simp
  | cons a t ih =>
    intro x hx
    simp only [lastIdx?] at h
    cases ht : lastIdx? t c with
    | some i =>
      rw [ht] at h
      simp at h
    | none =>
      rw [ht] at h
      by_cases hac : a = c
      · simp [hac] at h
      · rcases List.mem_cons.mp hx with rfl | hx'
        · exact hac
        · exact ih ht x hx'

/-- The list from the last index starts with the character, which does not
occur afterwards. -/
theorem lastIdx_some {l : List Char} {c : Char} :
    ∀ {d : Nat}, lastIdx? l c = some d →
      l.drop d = c :: l.drop (d + 1) ∧ ∀ x ∈ l.drop (d + 1), x ≠ c := by
  induction l with
  | nil => intro d h; simp [lastIdx?] at h
  | cons a t ih =>
    intro d h
    simp only [lastIdx?] at h
    cases ht : lastIdx? t c with
    | some i =>
      simp only [ht, Option.some.injEq] at h
      subst h
      simpa using ih ht
    | none =>
      simp only [ht] at h
      split at h
      · rename_i hac
        injection h with h
        subst h
        subst hac
        simpa using lastIdx_none ht
      · exact absurd h (by simp)

/-- Removing the dots of a dot-headed, otherwise dot-free list drops exactly
the leading dot. -/
theorem dropDots_cons_rest {rest : List Char} (h : '.' ∉ rest) :
    dropDots (String.mk ('.' :: rest)) = String.mk rest := by
  unfold dropDots
  have htl : (String.mk ('.' :: rest)).toList = '.' :: rest := rfl
  rw [htl]
  congr 1
  rw [List.filter_cons]
  simp only [bne_self_eq_false, if_false, Bool.false_eq_true, ite_false]
  exact List.filter_eq_self.mpr (fun a ha => by
    simp only [bne_iff_ne, ne_eq]
    exact fun e => h (e ▸ ha))

/-- The extension part returned by the list-level splitext is either empty or
the tail of the path from the last-dot index. -/
theorem splitextList_snd (l : List Char) :
    (splitextList l).2 = [] ∨
    ∃ d, lastIdx? l '.' = some d ∧ (splitextList l).2 = l.drop d := by
  cases hd : lastIdx? l '.' with
  | none =>
    left
    simp only [splitextList, hd]
  | some d =>
    simp only [splitextList, hd]
    split
    · right
      exact ⟨d, rfl, rfl⟩
    · left
      rfl

/-- The splitext extension is empty or a dot followed by a dot-free tail, and
the dot-removing replace equals dropping that single leading dot. -/
theorem fileExt_spec (fn : String) :
    ((splitext fn).2 = "" ∧ fileExtNoDots fn = "") ∨
    (∃ rest : List Char, (splitext fn).2 = String.mk ('.' :: rest) ∧ '.' ∉ rest ∧
      fileExtNoDots fn = String.mk rest) := by
  have hsnd : (splitext fn).2 = String.mk (splitextList fn.toList).2 := rfl
  rcases splitextList_snd fn.toList with h | ⟨d, hd, h⟩
  · left
    constructor
    · rw [hsnd, h]
    · unfold fileExtNoDots
      rw [hsnd, h]
      rfl
  · right
    obtain ⟨hdrop, hrest⟩ := lastIdx_some hd
    refine ⟨fn.toList.drop (d + 1), ?_, ?_, ?_⟩
    · rw [hsnd, h, hdrop]
    · intro hm
      exact hrest _ hm rfl
    · unfold fileExtNoDots
      rw [hsnd, h, hdrop]
      exact dropDots_cons_rest (fun hm => hrest _ hm rfl)

/-- The prefix and suffix sends are plain messages, never raw sends. -/
theorem optMsg_filter_raw (o : Option String) :
    (Message.optMsg o).filter Message.isRawSend = [] := by
  cases o with
  | none => rfl
  | some s =>
    by_cases hs : s = "" <;> simp [Message.optMsg, hs, Message.isRawSend]

/-! Claim theorems. -/

/-- Claim C2, counterexample: two distinct Message views over payloads with
the same id have equal hashes yet are not equal under the default identity
equality, so they are not interchangeable as set elements or map keys. -/
theorem C2_counterexample :
    Message.msgHash ⟨{ newMsgId := some (.int 42) }, 0⟩ =
        Message.msgHash ⟨{ newMsgId := some (.int 42) }, 1⟩ ∧
      Message.msgEq ⟨{ newMsgId := some (.int 42) }, 0⟩
        ⟨{ newMsgId := some (.int 42) }, 1⟩ = false :=
  ⟨rfl, rfl⟩

/-- Claim C2 (amended): hashing of Message views is determined solely by the
message id, but equality is the default object identity (the source defines
no eq override), so same-id views hash alike while equality holds exactly
between a view and itself. -/
theorem C2_hash_by_id (a b : Message.MsgView)
    (hid : a.raw.newMsgId = b.raw.newMsgId) :
    Message.msgHash a = Message.msgHash b ∧
      (Message.msgEq a b = true ↔ a.objId = b.objId) := by
  constructor
  · simp [Message.msgHash, hid]
  · simp [Message.msgEq]

/-- Witness for C2_hash_by_id at two concrete views. -/
theorem C2_witness :
    Message.msgHash ⟨{ newMsgId := some (.int 7) }, 3⟩ =
        Message.msgHash ⟨{ newMsgId := some (.int 7) }, 4⟩ ∧
      (Message.msgEq ⟨{ newMsgId := some (.int 7) }, 3⟩
          ⟨{ newMsgId := some (.int 7) }, 4⟩ = true ↔ (3 : Nat) = 4) :=
  C2_hash_by_id ⟨{ newMsgId := some (.int 7) }, 3⟩ ⟨{ newMsgId := some (.int 7) }, 4⟩ rfl

/-- Claim C5 (code bug): whenever the raw Url slot holds a string, the url
property re-enters itself (html.unescape is applied to self.url instead of
the local value just read), so it exhausts every recursion budget and raises
RecursionError instead of returning the unescaped string. -/
theorem C5_url_diverges (m : RawMsg) (s : String) (hs : m.url = some (.str s)) :
    (∀ fuel, Message.urlFuel m fuel = .error .recursionError) ∧
      Message.url m = .error .recursionError := by
  have key : ∀ fuel, Message.urlFuel m fuel = .error .recursionError := by
    intro fuel
    induction fuel with
    | zero => rfl
    | succ n ih => simp [Message.urlFuel, hs, ih]
  exact ⟨key, key 1000⟩

/-- Witness for C5_url_diverges at the concrete Sharing payload. -/
theorem C5_witness : Message.url sharingMsgEx = .error .recursionError :=
  (C5_url_diverges sharingMsgEx "http://e.x/?a=1&amp;b=2" rfl).2

/-- Claim C7: identity resolution is total. A group-prefixed identifier is
searched among the groups, any other among friends then mps; a miss yields
the bare wrapped chat, and sender and receiver always return a chat carrying
the raw identifier and never raise on string identifiers. -/
theorem C7_identity_total (bot : Bot) (s : String) (_hs : s ≠ "") :
    (∃ c, Message.getChatByUserName bot (.str s) = .ok c ∧ c.userName = s) ∧
    ((∀ c ∈ bot.groups ++ bot.friends ++ bot.mps, c.userName ≠ s) →
      Message.getChatByUserName bot (.str s) = .ok (wrapChat s)) ∧
    (∀ m : RawMsg, m.fromUserName = some (.str s) →
      ∃ c, Message.sender bot m = .ok c ∧ c.userName = s) ∧
    (∀ m : RawMsg, m.toUserName = some (.str s) →
      ∃ c, Message.receiver bot m = .ok c ∧ c.userName = s) := by
  refine ⟨getChat_str bot s, getChat_noMatch bot s, ?_, ?_⟩
  · intro m hm
    simpa [Message.sender, hm] using getChat_str bot s
  · intro m hm
    simpa [Message.receiver, hm] using getChat_str bot s

/-- Witness for C7_identity_total: an identifier absent from an empty roster
resolves to the bare wrapped chat. -/
theorem C7_witness :
    Message.getChatByUserName { selfUserName := "@self" } (.str "@bob") =
      .ok (wrapChat "@bob") :=
  (C7_identity_total { selfUserName := "@self" } "@bob" (by decide)).2.1 (by simp)

/-- Claim C8: get_file invokes the downloader held in the Text slot, passing
the optional save path, exactly when the kind is Picture, Recording,
Attachment or Video and the slot holds a downloader rather than a string; in
every other case it raises ValueError (the UnsupportedOperation failure),
which the embedding surfaces to the caller. -/
theorem C8_get_file (m : RawMsg) (p : Option String) :
    (∀ i, m.text = some (.downloader i) → Message.isMediaType m.type = true →
      Message.get_file m p = .ok ⟨i, p⟩) ∧
    ((∀ i, m.text ≠ some (.downloader i)) → Message.get_file m p = .error .valueError) ∧
    (Message.isMediaType m.type = false → Message.get_file m p = .error .valueError) ∧
    (Message.isMediaType m.type = true ↔
      (m.type = some (.str "Picture") ∨ m.type = some (.str "Recording") ∨
        m.type = some (.str "Attachment") ∨ m.type = some (.str "Video"))) := by
  refine ⟨?_, ?_, ?_, ?_⟩
  · intro i hi hm
    simp [Message.get_file, hi, hm]
  · intro hno
    unfold Message.get_file
    split
    · rename_i i heq
      exact absurd heq (hno i)
    · rfl
  · intro hm
    unfold Message.get_file
    split
    · simp [hm]
    · rfl
  · simp [Message.isMediaType, or_assoc]

/-- Witness for C8_get_file at a concrete Video payload with a downloader. -/
theorem C8_witness :
    Message.get_file ({ type := some (.str "Video"), text := some (.downloader 7) } : RawMsg)
      (some "/tmp/v.mp4") = .ok ⟨7, some "/tmp/v.mp4"⟩ :=
  (C8_get_file { type := some (.str "Video"), text := some (.downloader 7) }
    (some "/tmp/v.mp4")).1 7 rfl rfl

/-- Claim C9: within the non-msg branch of wrapped_send, destination sends
occur in program order: the truthy prefix as its own plain message, then the
primary send passed through unchanged, then the truthy suffix as its own
plain message; prefix and suffix are never folded into the primary payload,
and when the primary send fails the suffix send is never attempted. -/
theorem C9_wrapped_send_order (d : Message.Dest) (pre suf : Option String)
    (op : Message.SendOp) (_hop : ∀ s, op ≠ .sendMsg s) :
    ((∀ o, d.ok o = true) →
      Message.sendOtherWrapped d pre suf op =
        (Message.optMsg pre ++ [op] ++ Message.optMsg suf, .ok Message.sendResult)) ∧
    ((∀ s, d.ok (.sendMsg s) = true) → d.ok op = false →
      Message.sendOtherWrapped d pre suf op =
        (Message.optMsg pre ++ [op], .error .transportError)) :=
  ⟨fun h => sendOtherWrapped_allOk d pre suf op h,
    fun hmsg hfail => sendOtherWrapped_primaryFail d pre suf op hmsg hfail⟩

/-- Witness for C9_wrapped_send_order: a failing primary image send after a
successful prefix send stops before the suffix. -/
theorem C9_witness :
    Message.sendOtherWrapped destMsgOnly (some "P") (some "S") (.sendImage "/tmp/p.png") =
      ([Message.SendOp.sendMsg "P", .sendImage "/tmp/p.png"], .error .transportError) :=
  (C9_wrapped_send_order destMsgOnly (some "P") (some "S") (.sendImage "/tmp/p.png")
    (fun s h => by cases h)).2 (fun s => rfl) rfl

/-- Claim C1, counterexample: on a location record whose scale attribute does
not parse as an integer, the returned record keeps the already-coerced float
values of x and y while scale and maptype stay strings — the record is
partially coerced, not all-strings. -/
theorem C1_counterexample :
    Message.location locPartialMsg =
      .ok (some [("x", .float ⟨15, 1⟩), ("y", .float ⟨25, 1⟩),
        ("scale", .str "zz"), ("maptype", .str "3")]) := rfl

/-- Claim C1 (amended): location coerces x, y, scale, maptype in that order,
stopping at the first failing coercion, so fields coerced before the failure
keep numeric values while the failing field and the later ones keep string
values; a missing, non-string or unparsable OriContent yields absent without
raising, but a well-formed document without a location child raises
AttributeError. -/
theorem C1_location_amended (m : RawMsg) (root le : XmlElem) (sx sy ssc smt : String) :
    (m.oriContent = Option.none → Message.location m = .ok Option.none) ∧
    (∀ v, m.oriContent = some (.notText v) → Message.location m = .ok Option.none) ∧
    (∀ s, m.oriContent = some (.malformed s) → Message.location m = .ok Option.none) ∧
    (m.oriContent = some (.doc root) →
      root.children.find? (fun c => c.tag == "location") = Option.none →
      Message.location m = .error .attributeError) ∧
    (m.oriContent = some (.doc root) →
      root.children.find? (fun c => c.tag == "location") = some le →
      Message.location m =
        .ok (some (coerceLocation (le.attrib.map (fun p => (p.1, LocVal.str p.2)))))) ∧
    (parseFloatLit sx = Option.none →
      coerceLocation [("x", .str sx), ("y", .str sy), ("scale", .str ssc), ("maptype", .str smt)] =
        [("x", .str sx), ("y", .str sy), ("scale", .str ssc), ("maptype", .str smt)]) ∧
    (∀ fx fy, parseFloatLit sx = some fx → parseFloatLit sy = some fy →
      parseIntLit ssc = Option.none →
      coerceLocation [("x", .str sx), ("y", .str sy), ("scale", .str ssc), ("maptype", .str smt)] =
        [("x", .float fx), ("y", .float fy), ("scale", .str ssc), ("maptype", .str smt)]) ∧
    (∀ fx fy ns nm, parseFloatLit sx = some fx → parseFloatLit sy = some fy →
      parseIntLit ssc = some ns → parseIntLit smt = some nm →
      coerceLocation [("x", .str sx), ("y", .str sy), ("scale", .str ssc), ("maptype", .str smt)] =
        [("x", .float fx), ("y", .float fy), ("scale", .int ns), ("maptype", .int nm)]) := by
  refine ⟨?_, ?_, ?_, ?_, ?_, ?_, ?_, ?_⟩
  · intro h
    simp [Message.location, h]
  · intro v h
    simp [Message.location, h]
  · intro s h
    simp [Message.location, h]
  · intro h hf
    simp [Message.location, h, hf]
  · intro h hf
    simp [Message.location, h, hf]
  · intro hx
    simp [coerceLocation, alookup, locFloat, hx]
  · intro fx fy hx hy hsc
    simp [coerceLocation, alookup, setAttr, locFloat, locInt, hx, hy, hsc]
  · intro fx fy ns nm hx hy hsc hmt
    simp [coerceLocation, alookup, setAttr, locFloat, locInt, hx, hy, hsc, hmt]

/-- Witness for C1_location_amended at the concrete partially-coerced
record. -/
theorem C1_witness :
    coerceLocation [("x", .str "1.5"), ("y", .str "2.5"), ("scale", .str "zz"),
        ("maptype", .str "3")] =
      [("x", .float ⟨15, 1⟩), ("y", .float ⟨25, 1⟩), ("scale", .str "zz"),
        ("maptype", .str "3")] :=
  (C1_location_amended locPartialMsg (.node "msg" [] []) (.node "msg" [] [])
    "1.5" "2.5" "zz" "3").2.2.2.2.2.2.1 ⟨15, 1⟩ ⟨25, 1⟩ rfl rfl rfl

/-- Claim C10, counterexample: on a Map payload whose location sub-document
parses (to an empty record), text does not return the location label but
falls through to the literal Text slot. -/
theorem C10_counterexample :
    Message.location mapEmptyLocMsg = .ok (some []) ∧
      Message.text mapEmptyLocMsg = .ok (.str "T") :=
  ⟨rfl, rfl⟩

/-- Claim C10 (amended): text dispatches on the kind. For Map it returns the
parsed location label only when the record parses non-empty (the label slot
itself may be absent, yielding None without falling through); an empty or
absent record falls through to the literal Text slot, and a location error
propagates. For Card it is the recommended contact name and for Friends the
raw request message, each provided the RecommendInfo payload is present.
Every other kind falls through to the literal Text slot, which is returned
only when it is a string and never stringified otherwise. -/
theorem C10_text_amended (m : RawMsg) :
    (∀ a, m.type = some (.str "Map") → Message.location m = .ok (some a) → a ≠ [] →
      Message.text m = .ok ((alookup a "label").elim PyVal.none Message.locValToPy)) ∧
    (m.type = some (.str "Map") → Message.location m = .ok (some []) →
      Message.text m = Message.fallbackText m) ∧
    (m.type = some (.str "Map") → Message.location m = .ok Option.none →
      Message.text m = Message.fallbackText m) ∧
    (∀ e, m.type = some (.str "Map") → Message.location m = .error e →
      Message.text m = .error e) ∧
    (∀ ri, m.type = some (.str "Card") → m.recommendInfo = some ri →
      Message.text m = .ok (ri.nickName.getD .none)) ∧
    (∀ ri, m.type = some (.str "Friends") → m.recommendInfo = some ri →
      Message.text m = .ok (ri.content.getD .none)) ∧
    (m.type ∉ [some (PyVal.str "Map"), some (.str "Card"), some (.str "Friends")] →
      Message.text m = Message.fallbackText m) ∧
    (∀ s, m.text = some (.str s) → Message.fallbackText m = .ok (.str s)) ∧
    ((∀ s, m.text ≠ some (.str s)) → Message.fallbackText m = .ok .none) := by
  refine ⟨?_, ?_, ?_, ?_, ?_, ?_, ?_, ?_, ?_⟩
  · intro a ht hl ha
    have he : a.isEmpty = false := by
      cases a with
      | nil => exact absurd rfl ha
      | cons x t => rfl
    simp [Message.text, ht, hl, he]
  · intro ht hl
    simp [Message.text, ht, hl]
  · intro ht hl
    simp [Message.text, ht, hl]
  · intro e ht hl
    simp [Message.text, ht, hl]
  · intro ri ht hri
    simp [Message.text, ht, Message.cardName, hri]
  · intro ri ht hri
    simp [Message.text, ht, Message.cardContent, hri]
  · intro h
    simp only [List.mem_cons, List.not_mem_nil, or_false, not_or] at h
    obtain ⟨h1, h2, h3⟩ := h
    simp [Message.text, h1, h2, h3]
  · intro s hs
    simp [Message.fallbackText, hs]
  · intro hno
    unfold Message.fallbackText
    split
    · rename_i s heq
      exact absurd heq (hno s)
    · rfl

/-- Witness for C10_text_amended: a Card payload with a present
RecommendInfo. -/
theorem C10_witness :
    Message.text cardMsgEx = .ok (.str "Ann") :=
  (C10_text_amended cardMsgEx).2.2.2.2.1 recInfoEx rfl rfl

/-- Claim C3: forwarding a Text-kind message whose text resolves to a string
performs exactly one destination send, whose content is the text wrapped with
the truthy prefix and suffix joined by line breaks; an absent prefix or
suffix contributes nothing. -/
theorem C3_forward_text (bot : Bot) (m : RawMsg) (d : Message.Dest)
    (pre suf : Option String) (strict : Bool) (t : String)
    (hrepr : (Message.msgRepr bot m).isOk = true)
    (htype : m.type = some (.str "Text"))
    (htext : Message.text m = .ok (.str t))
    (hok : ∀ o, d.ok o = true) :
    Message.forward bot m d pre suf strict =
      ([Message.SendOp.sendMsg (Message.wrapText pre suf t)], .ok Message.sendResult) ∧
    Message.wrapText (some "P") (some "S") t = "P\n" ++ t ++ "\nS" ∧
    Message.wrapText Option.none Option.none t = t := by
  refine ⟨?_, rfl, ?_⟩
  · cases hr : Message.msgRepr bot m with
    | error e =>
      rw [hr] at hrepr
      simp [Except.isOk, Except.toBool] at hrepr
    | ok r =>
      simp [Message.forward, hr, htype, htext, Message.sendMsgWrapped, hok, pyStr]
  · show "" ++ t ++ "" = t
    simp

/-- Witness for C3_forward_text at a concrete Text payload with prefix P and
suffix S. -/
theorem C3_witness :
    Message.forward botEx textMsgEx destAllOk (some "P") (some "S") false =
      ([Message.SendOp.sendMsg (Message.wrapText (some "P") (some "S") "T")],
        .ok Message.sendResult) :=
  (C3_forward_text botEx textMsgEx destAllOk (some "P") (some "S") false "T"
    rfl rfl rfl (fun _ => rfl)).1

/-- Claim C4: every forward condition marked unsupported (a kind outside the
eight dispatched ones, a Picture flagged as a store sticker, a personal card
whose sender is not the session identity) performs zero destination sends,
returning None in default mode and raising NotImplementedError in strict
mode. -/
theorem C4_forward_unsupported (bot : Bot) (m : RawMsg) (d : Message.Dest)
    (pre suf : Option String)
    (hrepr : (Message.msgRepr bot m).isOk = true) :
    (m.type ∉ [some (PyVal.str "Text"), some (.str "Sharing"), some (.str "Map"),
        some (.str "Attachment"), some (.str "Card"), some (.str "Picture"),
        some (.str "Video"), some (.str "Recording")] →
      Message.forward bot m d pre suf false = ([], .ok .none) ∧
        Message.forward bot m d pre suf true = ([], .error .notImplementedError)) ∧
    (m.type = some (.str "Picture") → pyTruthy (m.hasProductId.getD .none) = true →
      Message.forward bot m d pre suf false = ([], .ok .none) ∧
        Message.forward bot m d pre suf true = ([], .error .notImplementedError)) ∧
    (∀ ri f, m.type = some (.str "Card") → m.recommendInfo = some ri →
      pyTruthy (ri.attrStatus.getD .none) = true →
      m.fromUserName = some (.str f) → f ≠ bot.selfUserName →
      Message.forward bot m d pre suf false = ([], .ok .none) ∧
        Message.forward bot m d pre suf true = ([], .error .notImplementedError)) := by
  cases hr : Message.msgRepr bot m with
  | error e =>
    rw [hr] at hrepr
    simp [Except.isOk, Except.toBool] at hrepr
  | ok r =>
    refine ⟨?_, ?_, ?_⟩
    · intro h
      simp only [List.mem_cons, List.not_mem_nil, or_false, not_or] at h
      obtain ⟨h1, h2, h3, h4, h5, h6, h7, h8⟩ := h
      constructor <;>
        simp [Message.forward, hr, h1, h2, h3, h4, h5, h6, h7, h8, Message.unsupportedResult]
    · intro htype htruthy
      constructor <;>
        simp [Message.forward, hr, htype, htruthy, Message.unsupportedResult]
    · intro ri f htype hri hattr hfrom hne
      obtain ⟨c, hc, hcu⟩ := getChat_str bot f
      have hsender : Message.sender bot m = .ok c := by
        unfold Message.sender
        rw [hfrom]
        exact hc
      have hbne : (c.userName != bot.selfUserName) = true := by
        simp [hcu, hne]
      constructor <;>
        simp [Message.forward, hr, htype, hri, hattr, hsender, hbne,
          Message.unsupportedResult]

/-- Witness for C4_forward_unsupported at a concrete Note payload. -/
theorem C4_witness :
    Message.forward botEx noteMsgEx destAllOk Option.none Option.none false =
        ([], .ok .none) ∧
      Message.forward botEx noteMsgEx destAllOk Option.none Option.none true =
        ([], .error .notImplementedError) :=
  (C4_forward_unsupported botEx noteMsgEx destAllOk Option.none Option.none rfl).1
    (by decide)

/-- Claim C6: forwarding an Attachment performs exactly one raw
protocol-level send; the rebuilt envelope carries the file name, total length
and media id of the view together with the extension of the file name, and
that extension is the splitext suffix of the file name with its single
leading dot removed. -/
theorem C6_forward_attachment (bot : Bot) (m : RawMsg) (d : Message.Dest)
    (pre suf : Option String) (strict : Bool) (fn : String) (mt : PyVal)
    (hrepr : (Message.msgRepr bot m).isOk = true)
    (htype : m.type = some (.str "Attachment"))
    (hfn : m.fileName = some (.str fn))
    (hmt : m.msgType = some mt)
    (hok : ∀ o, d.ok o = true) :
    Message.forward bot m d pre suf strict =
      (Message.optMsg pre ++
        [Message.SendOp.sendRawMsg mt
          (.str (Message.appmsgContent fn (pyStr (m.fileSize.getD .none))
            (pyStr (m.mediaId.getD .none)) (fileExtNoDots fn)))
          "/webwxsendappmsg?fun=async&f=json"] ++ Message.optMsg suf,
        .ok Message.sendResult) ∧
    ((Message.forward bot m d pre suf strict).1.filter Message.isRawSend).length = 1 ∧
    ((splitext fn).2 = "" ∧ fileExtNoDots fn = "" ∨
      ∃ rest : List Char, (splitext fn).2 = String.mk ('.' :: rest) ∧ '.' ∉ rest ∧
        fileExtNoDots fn = String.mk rest) := by
  have hfwd : Message.forward bot m d pre suf strict =
      (Message.optMsg pre ++
        [Message.SendOp.sendRawMsg mt
          (.str (Message.appmsgContent fn (pyStr (m.fileSize.getD .none))
            (pyStr (m.mediaId.getD .none)) (fileExtNoDots fn)))
          "/webwxsendappmsg?fun=async&f=json"] ++ Message.optMsg suf,
        .ok Message.sendResult) := by
    cases hr : Message.msgRepr bot m with
    | error e =>
      rw [hr] at hrepr
      simp [Except.isOk, Except.toBool] at hrepr
    | ok r =>
      have hsw := sendOtherWrapped_allOk d pre suf
        (Message.SendOp.sendRawMsg mt
          (.str (Message.appmsgContent fn (pyStr (m.fileSize.getD .none))
            (pyStr (m.mediaId.getD .none)) (fileExtNoDots fn)))
          "/webwxsendappmsg?fun=async&f=json") hok
      rw [Message.forward, hr]
      simp [htype, hfn, hmt, hsw]
  refine ⟨hfwd, ?_, fileExt_spec fn⟩
  rw [hfwd]
  simp [List.filter_append, optMsg_filter_raw, Message.isRawSend]

/-- Witness for C6_forward_attachment at a concrete Attachment payload. -/
theorem C6_witness :
    ((Message.forward botEx attMsgEx destAllOk Option.none Option.none false).1.filter
      Message.isRawSend).length = 1 :=
  (C6_forward_attachment botEx attMsgEx destAllOk Option.none Option.none false
    "report.tar.gz" (.int 6) rfl rfl rfl rfl (fun _ => rfl)).2.1

end Wxpy
